import Mathlib

/-!
Shallow embedding of the model-resolution and patch-application registry of
the `swift` repository, covering:

* `register_model`                     (src/swift/llm/utils/model.py, lines 396-454)
* `_check_awq_ext`                     (model.py, lines 457-465)
* `_check_gptq_model`                  (model.py, lines 468-492)
* `get_model_tokenizer_from_repo`      (model.py, lines 757-805)
* `fix_gradient_checkpointing_warning` (model.py, lines 3780-3805)
* `safe_snapshot_download`             (model.py, lines 3808-3860)
* `get_torch_dtype`                    (model.py, lines 3863-3870)
* `get_model_tokenizer`                (model.py, lines 3873-3950)
* the max-length block of `prepare_model_template` (src/swift/llm/infer.py, lines 188-197)

External effects (filesystem tests, hub downloads, the dependency-version
checker, `transformers` object construction) are parameters collected in an
`Env` record, and the pipeline additionally returns the list of external
events it performed (downloads, requirement checks, tokenizer/model loads),
so that ordering statements ("before any download", "no model loaded") are
expressible.  Python exceptions become `Except Err`.
-/

namespace Swift

/-- Torch numeric dtypes that occur in the registry. -/
inductive Dtype
  | float16
  | bfloat16
  | float32
  deriving DecidableEq, Repr

/-- Python exceptions raised by the embedded code. -/
inductive Err
  /-- The `KeyError` from `MODEL_MAPPING[model_type]` on an unregistered key. -/
  | unknownModel (key : String)
  /-- The `ValueError` from `register_model` on a duplicate key (model.py:415). -/
  | duplicateKey (key : String)
  /-- raised by `require_version` for an unmet constraint (model.py:3893). -/
  | unsatisfiedRequirement (req : String)
  /-- The `AssertionError` from `assert torch_dtype == model_torch_dtype` (model.py:3906). -/
  | dtypeMismatch (expected : Dtype)
  /-- The `AssertionError` from `assert tokenizer.eos_token is not None` (model.py:3932). -/
  | missingEos
  /-- The `ImportError` from `_check_awq_ext` (model.py:461-465). -/
  | missingAwqExt
  /-- The `ImportError` from `from auto_gptq.nn_modules ... import QuantLinear` (model.py:478). -/
  | missingAutoGptq
  /-- The `ImportError` from `import aqlm` (model.py:777). -/
  | missingAqlm
  /-- The `AssertionError` from `assert model_kwargs.get('quantization_config') is None` (model.py:469). -/
  | quantConfigAlreadySet
  /-- The `AssertionError` from `assert os.path.isdir(model_dir)` (model.py:3859). -/
  | notADirectory (dir : String)
  /-- The `TypeError` from `os.path.expanduser(None)` when no model id is available. -/
  | typeError
  /-- The `ValueError` raised at infer.py:194-197 when the caller max length exceeds the model one. -/
  | contextLengthExceeded (argsMax modelMax : Int)
  deriving DecidableEq, Repr

/-- External events the pipeline performs, in order. -/
inductive Event
  /-- The `hf_snapshot_download` (model.py:3839-3843). -/
  | downloadHF (modelId revision : String)
  /-- modelscope `snapshot_download` (model.py:3850-3853). -/
  | downloadMS (modelId revision : String)
  /-- The `require_version(require)` (model.py:3893). -/
  | requireCheck (req : String)
  /-- The `AutoTokenizer.from_pretrained(model_dir, ...)` (model.py:787). -/
  | loadTokenizer (dir : String)
  /-- The `automodel_class.from_pretrained(model_dir, ...)` (model.py:795-800). -/
  | loadModel (dir : String)
  deriving DecidableEq, Repr

/-- The slice of a transformers model config the registry reads and writes. -/
structure ModelConfig where
  torch_dtype : Option Dtype
  deriving DecidableEq, Repr

/-- A transformers generation config: the fields lines 3943-3948 read. -/
structure GenerationConfig where
  temperature : ℚ
  do_sample : Bool
  deriving DecidableEq, Repr

/-- The quantization config objects stored in `model_kwargs['quantization_config']`:
`GPTQConfig(bits=..., use_exllama=False / disable_exllama=True)` (both
transformers-version branches disable exllama) or `BitsAndBytesConfig`. -/
inductive QuantConfig
  | gptq (bits : Nat)
  | bnb (bnb_4bit_compute_dtype : Option Dtype)
  deriving DecidableEq, Repr

/-- The `model_kwargs` dict: the keys the embedded code touches. -/
structure ModelKwargs where
  device_map : Option String
  quantization_config : Option QuantConfig
  deriving DecidableEq, Repr

/-- A tokenizer: the attributes the embedded code reads and writes. -/
structure Tokenizer where
  eos_token : Option String
  pad_token : Option String
  model_type : Option String
  model_dir : Option String
  deriving DecidableEq, Repr

/-- A loaded model: the attributes the embedded code reads and writes. -/
structure Model where
  config : ModelConfig
  generation_config : Option GenerationConfig
  max_model_len : Option Int
  model_type : Option String
  model_dir : Option String
  is_awq : Bool
  gptq_bits : Nat
  deriving DecidableEq, Repr

/-- The `function_kwargs` a registration can pre-bind onto
`get_model_tokenizer_from_repo` (the keys that loader pops). -/
structure FunctionKwargs where
  is_awq : Bool
  is_aqlm : Bool
  gptq_bits : Nat
  deriving DecidableEq, Repr

/-- In Python the stored `get_function` is either the registered loader itself
or `partial(loader, **function_kwargs)` (model.py:438-439, 448-449).  We
represent it as the identity of the underlying loader procedure (`baseId`)
together with the bound keyword arguments. -/
structure Loader where
  baseId : Nat
  fkwargs : FunctionKwargs
  deriving DecidableEq, Repr

/-- One `model_info` record of `MODEL_MAPPING` (model.py:424-435, 440, 450). -/
structure ModelInfo where
  model_id_or_path : Option String
  requires : List String
  torch_dtype : Option Dtype
  ignore_file_pattern : Option (List String)
  hf_model_id : Option String
  revision : String
  eos_token : Option String
  get_function : Loader
  deriving DecidableEq, Repr

/-- The `MODEL_MAPPING`: a Python dict from model-type key to `model_info`. -/
def ModelMapping := String → Option ModelInfo

/-- The arguments of one `register_model` call (model.py:396-411); `Option`
fields are the parameters whose Python default is `None`. -/
structure RegisterArgs where
  model_id_or_path : Option String
  requires : Option (List String)
  torch_dtype : Option Dtype
  hf_model_id : Option String
  revision : Option String
  ignore_file_pattern : Option (List String)
  function_kwargs : FunctionKwargs
  eos_token : Option String
  get_function : Nat
  deriving DecidableEq, Repr

/-- The `register_model` (model.py:396-454).  The duplicate check of line 414
runs first; the defaults of lines 418-423 are applied; the `model_info` dict
of lines 424-435 is built and stored under `model_type`.  Whether the loader
is passed directly (lines 437-442) or via the returned decorator
(lines 444-454), the stored entry is the same: the loader, partially applied
to `function_kwargs`; `a.get_function` is the loader being registered. -/
def register_model (mapping : ModelMapping) (model_type : String)
    (a : RegisterArgs) (exists_ok : Bool) : Except Err ModelMapping :=
  if ¬ exists_ok ∧ (mapping model_type).isSome then
    .error (.duplicateKey model_type)
  else
    let info : ModelInfo :=
      { model_id_or_path := a.model_id_or_path
        requires := a.requires.getD []
        torch_dtype := a.torch_dtype
        ignore_file_pattern := a.ignore_file_pattern
        hf_model_id := a.hf_model_id
        revision := a.revision.getD "master"
        eos_token := a.eos_token
        get_function := { baseId := a.get_function, fkwargs := a.function_kwargs } }
    .ok (fun k => if k = model_type then some info else mapping k)

/-! ## Monkey-patch state

`fix_gradient_checkpointing_warning` (model.py:3780-3805) and
`_check_gptq_model` (model.py:468-492) mutate process-wide function
attributes.  We model the affected functions syntactically, so that single
versus double wrapping is observable, together with a denotation (`run`)
giving the observable behavior of a call. -/

/-- The checkpoint function object held in `torch.utils.checkpoint.checkpoint`
and `transformers.modeling_utils.checkpoint`: the pristine library function,
or a wrapper `lambda *args, use_reentrant=ur, **kwargs:
inner(*args, use_reentrant=use_reentrant, **kwargs)` closing over `inner`. -/
inductive CkptFun
  | base
  | wrapped (inner : CkptFun) (use_reentrant : Bool)
  deriving DecidableEq, Repr

/-- Observable behavior of calling a `CkptFun` with `use_reentrant` passed
explicitly (`some b`) or left to defaults (`none`): the `use_reentrant`
keyword value that finally reaches the pristine library function.  A wrapper
substitutes its closed-over default when the caller passed nothing, then
always passes the keyword explicitly to its inner function. -/
def CkptFun.run : CkptFun → Option Bool → Option Bool
  | .base, u => u
  | .wrapped f ur, u => f.run (some (u.getD ur))

/-- The process-wide module attributes touched by
`fix_gradient_checkpointing_warning`.  `torch_has_old` is
`hasattr(torch.utils.checkpoint, '_old_checkpoint')` (the double-patch
guard, model.py:3790-3791); `transformers_has_checkpoint` is
`hasattr(transformers.modeling_utils, 'checkpoint')` (model.py:3800). -/
structure PatchState where
  torch_checkpoint : CkptFun
  torch_has_old : Bool
  torch_old_checkpoint : Option CkptFun
  transformers_checkpoint : CkptFun
  transformers_has_checkpoint : Bool
  deriving DecidableEq, Repr

/-- The installed torch version, classified by the branches of
model.py:3781-3788. -/
inductive TorchVer
  | lt2
  | ge2lt21
  | ge21
  deriving DecidableEq, Repr

/-- The `fix_gradient_checkpointing_warning` (model.py:3780-3805).  Faithful to
the source: `_old_checkpoint` is read (line 3789) *before* the double-patch
guard, the `torch.utils.checkpoint` patch is guarded (lines 3790-3797), and
the `transformers.modeling_utils.checkpoint` assignment (lines 3798-3803) is
performed on every call, closing over the `_old_checkpoint` just read. -/
def fix_gradient_checkpointing_warning (tv : TorchVer) (s : PatchState) :
    PatchState :=
  match tv with
  | .lt2 => s
  | tv =>
    let use_reentrant := tv = TorchVer.ge2lt21
    let old_checkpoint := s.torch_checkpoint
    let s1 :=
      if ¬ s.torch_has_old then
        { s with
          torch_old_checkpoint := some old_checkpoint
          torch_has_old := true
          torch_checkpoint := .wrapped old_checkpoint use_reentrant }
      else s
    if s1.transformers_has_checkpoint then
      { s1 with transformers_checkpoint := .wrapped old_checkpoint use_reentrant }
    else s1

/-- The `QuantLinear.forward` function object: the pristine method or the
`_new_forward` wrapper of model.py:481-488 closing over the forward it read. -/
inductive QLForward
  | base
  | patched (inner : QLForward)
  deriving DecidableEq, Repr

/-- The class-level state of `auto_gptq`'s `QuantLinear` touched by
`_check_gptq_model`: its `forward`, and whether the `__old_forward`
attribute exists (`hasattr(QuantLinear, '__old_forward')`, the double-patch
guard of model.py:490). -/
structure QLState where
  forward : QLForward
  has_old : Bool
  old_forward : Option QLForward
  deriving DecidableEq, Repr

/-! ## External world -/

/-- The external collaborators of the pipeline: environment toggles,
filesystem tests, the two hub providers, the dependency-version checker,
`transformers` constructors, and extension-library availability.  A field of
type `String → _` is keyed by a model id or a local directory. -/
structure Env where
  /-- The `strtobool(os.environ.get('USE_HF', 'False'))` (model.py:3814). -/
  use_hf : Bool
  /-- The `os.path.exists` (model.py:3824). -/
  path_exists : String → Bool
  /-- The `os.path.isdir` (model.py:3859). -/
  isdir : String → Bool
  /-- The `os.path.expanduser` (model.py:3858). -/
  expanduser : String → String
  /-- local directory produced by `hf_snapshot_download(id, revision, ...)`. -/
  hf_download : String → String → String
  /-- local directory produced by modelscope `snapshot_download(id, revision, ...)`. -/
  ms_download : String → String → String
  /-- whether `require_version(req)` passes for a constraint string. -/
  requirement_met : String → Bool
  /-- the `torch_dtype` entry of `PretrainedConfig.get_config_dict(model_dir)[0]`
  (model.py:3864-3867). -/
  config_torch_dtype : String → Option Dtype
  /-- The `AutoConfig.from_pretrained(model_dir, trust_remote_code=True)` (model.py:782). -/
  auto_config : String → ModelConfig
  /-- The `AutoTokenizer.from_pretrained(model_dir, trust_remote_code=True)` (model.py:787). -/
  auto_tokenizer : String → Tokenizer
  /-- The `automodel_class.from_pretrained(model_dir, config, torch_dtype, ...)`
  (model.py:795-800): the freshly constructed model. -/
  from_pretrained_model : String → ModelConfig → Option Dtype → ModelKwargs → Model
  /-- whether `awq.utils.packing_utils` and `awq_ext` import (model.py:459-460). -/
  awq_ext_available : Bool
  /-- whether `auto_gptq.nn_modules.qlinear.qlinear_cuda_old` imports (model.py:478). -/
  auto_gptq_available : Bool
  /-- whether `import aqlm` succeeds (model.py:777). -/
  aqlm_available : Bool
  /-- The `use_torchacc()` (model.py:3897). -/
  use_torchacc : Bool
  /-- The `generation_config.json` in `model_dir`: `none` when the file does not
  exist, otherwise the parsed `GenerationConfig.from_pretrained(model_dir)`
  (model.py:3936-3942). -/
  gen_config_file : String → Option GenerationConfig
  /-- The `get_max_model_len(model.config)` (model.py:3924; the helper lives in
  src/swift/llm/utils/utils.py): the max context length derived from the
  model config, `none` when the config declares none. -/
  get_max_model_len : ModelConfig → Option Int

/-! ## Pipeline functions -/

/-- The `_check_awq_ext` (model.py:457-465): `ImportError` when the AWQ CUDA
extension is not installed. -/
def _check_awq_ext (env : Env) : Except Err Unit :=
  if env.awq_ext_available then .ok () else .error .missingAwqExt

/-- The `_check_gptq_model` (model.py:468-492), in source order: the assert of
line 469, the `GPTQConfig` stored into `model_kwargs` (lines 470-475, both
transformers-version branches disable exllama), the `auto_gptq` import
(line 478), and the guarded `QuantLinear.forward` patch (lines 479-492). -/
def _check_gptq_model (env : Env) (bits : Nat) (model_kwargs : ModelKwargs)
    (ql : QLState) : Except Err (ModelKwargs × QLState) :=
  if model_kwargs.quantization_config.isSome then
    .error .quantConfigAlreadySet
  else
    let model_kwargs := { model_kwargs with quantization_config := some (.gptq bits) }
    if ¬ env.auto_gptq_available then .error .missingAutoGptq
    else
      let old_forward := ql.forward
      let ql :=
        if ¬ ql.has_old then
          { forward := .patched old_forward
            has_old := true
            old_forward := some old_forward }
        else ql
      .ok (model_kwargs, ql)

/-- The `get_torch_dtype` (model.py:3863-3870): the checkpoint's own declared
dtype from its config dict, with `float32` replaced by `float16`. -/
def get_torch_dtype (env : Env) (model_dir : String) : Option Dtype :=
  let torch_dtype := env.config_torch_dtype model_dir
  if torch_dtype = some .float32 then some .float16 else torch_dtype

/-- The `safe_snapshot_download` (model.py:3808-3860).  `model_dir_kw` is the
`model_dir` compat keyword (line 3816); the result is the local checkpoint
directory, after `os.path.expanduser` and the `isdir` assert of
lines 3858-3859.  Download events record which provider ran and with which
revision default (`'main'` for HF at line 3829, the catalog revision for
modelscope at line 3846). -/
def safe_snapshot_download (env : Env) (mapping : ModelMapping)
    (model_type : String) (model_id_or_path : Option String)
    (revision : Option String) (model_dir_kw : Option String) :
    List Event × Except Err String :=
  match mapping model_type with
  | none => ([], .error (.unknownModel model_type))
  | some model_info =>
    let model_id_or_path : Option String :=
      match model_id_or_path with
      | some p => some p
      | none =>
        match model_dir_kw with
        | some d => some d
        | none =>
          if env.use_hf then model_info.hf_model_id
          else model_info.model_id_or_path
    match model_id_or_path with
    | none => ([], .error .typeError)
    | some mid =>
      let (events, model_dir) :=
        if ¬ env.path_exists mid then
          if env.use_hf then
            let revision := revision.getD "main"
            ([.downloadHF mid revision], env.hf_download mid revision)
          else
            let revision := revision.getD model_info.revision
            ([.downloadMS mid revision], env.ms_download mid revision)
        else ([], mid)
      let model_dir := env.expanduser model_dir
      if env.isdir model_dir then (events, .ok model_dir)
      else (events, .error (.notADirectory model_dir))

/-- The `for require in requires: require_version(require)` loop of
model.py:3892-3893: each constraint is checked in order, raising
`unsatisfiedRequirement` at the first unmet one. -/
def check_requires (env : Env) : List String → List Event × Except Err Unit
  | [] => ([], .ok ())
  | req :: rest =>
    if env.requirement_met req then
      let (events, r) := check_requires env rest
      (.requireCheck req :: events, r)
    else ([.requireCheck req], .error (.unsatisfiedRequirement req))

/-- The `get_model_tokenizer_from_repo` (model.py:757-805), the loader shared by
the llama/atom family registrations.  `fk` holds the keyword arguments the
registration pre-bound (`is_awq`, `is_aqlm`, `gptq_bits`, popped at
lines 766-768); `eos_token` and `is_training` arrive through `**kwargs` from
`get_model_tokenizer` (lines 3918-3920).  Returns the (optional) model and
tokenizer together with the mutated `model_kwargs` dict and `QuantLinear`
class state. -/
def get_model_tokenizer_from_repo (env : Env) (ql : QLState)
    (model_dir : String) (torch_dtype : Option Dtype)
    (model_kwargs : ModelKwargs) (load_model : Bool) (fk : FunctionKwargs)
    (eos_token : Option String) (is_training : Bool)
    (model_config : Option ModelConfig) (tokenizer : Option Tokenizer) :
    List Event × Except Err (Option Model × Tokenizer × ModelKwargs × QLState) :=
  match (if fk.is_awq ∧ is_training then _check_awq_ext env else .ok ()) with
  | .error e => ([], .error e)
  | .ok () =>
    match (if 0 < fk.gptq_bits ∧ is_training then
             _check_gptq_model env fk.gptq_bits model_kwargs ql
           else .ok (model_kwargs, ql)) with
    | .error e => ([], .error e)
    | .ok (model_kwargs, ql) =>
      match (if fk.is_aqlm ∧ is_training then
               if ¬ env.requirement_met "transformers>=4.39" then
                 ([Event.requireCheck "transformers>=4.39"],
                  Except.error (Err.unsatisfiedRequirement "transformers>=4.39"))
               else if ¬ env.aqlm_available then
                 ([Event.requireCheck "transformers>=4.39"], Except.error Err.missingAqlm)
               else ([Event.requireCheck "transformers>=4.39"], Except.ok ())
             else ([], Except.ok ())) with
      | (events, .error e) => (events, .error e)
      | (events, .ok ()) =>
        let model_config := model_config.getD (env.auto_config model_dir)
        let model_config :=
          match torch_dtype with
          | some td => { model_config with torch_dtype := some td }
          | none => model_config
        let (tok_events, tokenizer) :=
          match tokenizer with
          | some t => ([], t)
          | none => ([Event.loadTokenizer model_dir], env.auto_tokenizer model_dir)
        let tokenizer :=
          match eos_token with
          | some e => { tokenizer with eos_token := some e }
          | none => tokenizer
        if load_model then
          let m := env.from_pretrained_model model_dir model_config torch_dtype model_kwargs
          let m := if fk.is_awq then { m with is_awq := true } else m
          let m := if 0 < fk.gptq_bits then { m with gptq_bits := fk.gptq_bits } else m
          (events ++ tok_events ++ [Event.loadModel model_dir],
           .ok (some m, tokenizer, model_kwargs, ql))
        else
          (events ++ tok_events, .ok (none, tokenizer, model_kwargs, ql))

/-- The universal do-sample fixup of model.py:3944-3948 ("fix llama2 bug"):
a sampling temperature strictly between 0 and 1 with `do_sample is False`
gets `do_sample` switched on; every other combination is left unchanged. -/
def fix_do_sample (gc : GenerationConfig) : GenerationConfig :=
  if 0 < gc.temperature ∧ gc.temperature < 1 ∧ gc.do_sample = false then
    { gc with do_sample := true }
  else gc

/-- Result of `get_model_tokenizer`: the returned `(model, tokenizer)` pair,
plus (for the purposes of this development) the dtype value that was passed
to the loader, the resolved local directory, the final `model_kwargs` dict,
and the process-wide patch states after the call. -/
structure GMTResult where
  model : Option Model
  tokenizer : Tokenizer
  resolved_dtype : Option Dtype
  model_dir : String
  model_kwargs : ModelKwargs
  patch_state : PatchState
  ql_state : QLState
  deriving DecidableEq, Repr

/-- The universal post-load tail of `get_model_tokenizer`
(model.py:3923-3950), run on the loader's output: max-length and identity
attributes on the model (lines 3923-3928), `fix_gradient_checkpointing_warning`
(line 3929), tokenizer attributes, the EOS assert and the pad default
(lines 3930-3934), and generation-config reconciliation (lines 3935-3949). -/
def post_load_fixups (env : Env) (ps : PatchState) (tv : TorchVer)
    (model_type model_dir : String) (torch_dtype : Option Dtype)
    (mk : ModelKwargs) (ql : QLState) (model : Option Model)
    (tok : Tokenizer) : Except Err GMTResult :=
  let model := model.map fun m =>
    { m with
      max_model_len := env.get_max_model_len m.config
      model_type := some model_type
      model_dir := some model_dir }
  -- `fix_transformers_upgrade(model)` (line 3928) rebinds an instance
  -- method to the library implementation; no modeled field changes.
  let ps := fix_gradient_checkpointing_warning tv ps
  let tok := { tok with model_type := some model_type, model_dir := some model_dir }
  if tok.eos_token = none then .error .missingEos
  else
    let tok :=
      if tok.pad_token = none then { tok with pad_token := tok.eos_token }
      else tok
    let model := model.map fun m =>
      let m :=
        match m.generation_config with
        | none => { m with generation_config := env.gen_config_file model_dir }
        | some _ => m
      match m.generation_config with
      | some gc => { m with generation_config := some (fix_do_sample gc) }
      | none => m
    .ok { model := model
          tokenizer := tok
          resolved_dtype := torch_dtype
          model_dir := model_dir
          model_kwargs := mk
          patch_state := ps
          ql_state := ql }

/-- The `get_model_tokenizer` (model.py:3873-3950), the resolution pipeline, in
source order: `safe_snapshot_download` (line 3887), the requirement loop
(lines 3891-3893), `model_kwargs` defaulting (lines 3895-3898), dtype
determination (lines 3900-3917), `kwargs['eos_token']`/`is_training`
defaulting (lines 3918-3920), the bound loader call (line 3921), and the
universal `post_load_fixups` tail (lines 3923-3950).  `ps`/`ql` are the
process-wide patch states on entry and `tv` the installed torch version;
`model_config`/`tokenizer` are the injectable override objects forwarded
through `**kwargs` to the loader. -/
def get_model_tokenizer (env : Env) (mapping : ModelMapping) (ps : PatchState)
    (ql : QLState) (tv : TorchVer) (model_type : String)
    (torch_dtype : Option Dtype) (model_kwargs : Option ModelKwargs)
    (load_model : Bool) (model_id_or_path : Option String)
    (revision : Option String) (model_dir_kw : Option String)
    (is_training : Option Bool) (model_config : Option ModelConfig)
    (tokenizer : Option Tokenizer) : List Event × Except Err GMTResult :=
  let (dl_events, dl) :=
    safe_snapshot_download env mapping model_type model_id_or_path revision model_dir_kw
  match dl with
  | .error e => (dl_events, .error e)
  | .ok model_dir =>
    match mapping model_type with
    | none => (dl_events, .error (.unknownModel model_type))
    | some model_info =>
      let (req_events, rc) := check_requires env model_info.requires
      match rc with
      | .error e => (dl_events ++ req_events, .error e)
      | .ok () =>
        let mk := model_kwargs.getD { device_map := none, quantization_config := none }
        let mk :=
          if mk.device_map = none ∧ ¬ env.use_torchacc then
            { mk with device_map := some "auto" }
          else mk
        let dtype_res : Except Err (Option Dtype × ModelKwargs) :=
          match model_info.torch_dtype with
          | some model_torch_dtype =>
            match torch_dtype with
            | none => .ok (some model_torch_dtype, mk)
            | some td =>
              if td = model_torch_dtype then .ok (some td, mk)
              else .error (.dtypeMismatch model_torch_dtype)
          | none =>
            match torch_dtype with
            | some td => .ok (some td, mk)
            | none =>
              let td := get_torch_dtype env model_dir
              let mk :=
                match mk.quantization_config with
                | some (.bnb none) => { mk with quantization_config := some (.bnb td) }
                | _ => mk
              .ok (td, mk)
        match dtype_res with
        | .error e => (dl_events ++ req_events, .error e)
        | .ok (torch_dtype, mk) =>
          let eos_token := model_info.eos_token
          let is_training := is_training.getD false
          let (load_events, lr) :=
            get_model_tokenizer_from_repo env ql model_dir torch_dtype mk
              load_model model_info.get_function.fkwargs eos_token is_training
              model_config tokenizer
          let events := dl_events ++ req_events ++ load_events
          match lr with
          | .error e => (events, .error e)
          | .ok (model, tok, mk, ql) =>
            (events,
             post_load_fixups env ps tv model_type model_dir torch_dtype mk ql model tok)

/-- The max-length reconciliation block of `prepare_model_template`
(src/swift/llm/infer.py, lines 188-197): a model-side `max_model_len` of
`None` takes the caller's value unconditionally; otherwise a supplied caller
value must not exceed the model-side one. -/
def prepare_model_template_max_len (model : Model)
    (args_max_model_len : Option Int) : Except Err Model :=
  match model.max_model_len with
  | none => .ok { model with max_model_len := args_max_model_len }
  | some model_max =>
    match args_max_model_len with
    | none => .ok model
    | some args_max =>
      if args_max ≤ model_max then .ok { model with max_model_len := some args_max }
      else .error (.contextLengthExceeded args_max model_max)

/-! ## Concrete fixtures

A small concrete world-state used to exercise the pipeline on closed
inputs. -/

/-- Pristine process-wide checkpoint-patch state: nothing patched yet. -/
def ps0 : PatchState :=
  { torch_checkpoint := .base
    torch_has_old := false
    torch_old_checkpoint := none
    transformers_checkpoint := .base
    transformers_has_checkpoint := true }

/-- Pristine `QuantLinear` class state: forward unpatched. -/
def ql0 : QLState := { forward := .base, has_old := false, old_forward := none }

/-- A tokenizer as shipped by a checkpoint: eos present, pad absent. -/
def tok0 : Tokenizer :=
  { eos_token := some "</s>", pad_token := none, model_type := none, model_dir := none }

/-- The rational 3/5 as a reduced fraction: the shipped llama2 generation
temperature 0.6, written so that comparisons evaluate by kernel reduction. -/
def temp06 : ℚ := ⟨3, 5, by decide, by decide⟩

/-- A freshly constructed model for a given config. -/
def model0 (cfg : ModelConfig) : Model :=
  { config := cfg
    generation_config := some { temperature := temp06, do_sample := false }
    max_model_len := none
    model_type := none
    model_dir := none
    is_awq := false
    gptq_bits := 0 }

/-- A concrete environment: modelscope provider, nothing cached locally,
checkpoints declaring `float32`, no optional extension installed, and no
dependency constraint satisfied. -/
def env0 : Env :=
  { use_hf := false
    path_exists := fun _ => false
    isdir := fun _ => true
    expanduser := fun s => s
    hf_download := fun mid _ => mid
    ms_download := fun mid _ => mid
    requirement_met := fun _ => false
    config_torch_dtype := fun _ => some .float32
    auto_config := fun _ => { torch_dtype := none }
    auto_tokenizer := fun _ => tok0
    from_pretrained_model := fun _ cfg _ _ => model0 cfg
    awq_ext_available := false
    auto_gptq_available := false
    aqlm_available := false
    use_torchacc := false
    gen_config_file := fun _ => none
    get_max_model_len := fun _ => some 4096 }

/-- The `env0` with every dependency constraint satisfied. -/
def env_ok : Env := { env0 with requirement_met := fun _ => true }

/-- The `env0` with the `auto_gptq` extension installed. -/
def env_gptq : Env := { env0 with auto_gptq_available := true }

/-- A catalog entry in the llama2 family: no declared dtype, one
dependency requirement, loaded by `get_model_tokenizer_from_repo`. -/
def info_llama : ModelInfo :=
  { model_id_or_path := some "modelscope/llama2-7b-chat"
    requires := ["transformers>=4.34"]
    torch_dtype := none
    ignore_file_pattern := none
    hf_model_id := some "meta-llama/Llama-2-7b-chat"
    revision := "master"
    eos_token := none
    get_function :=
      { baseId := 0, fkwargs := { is_awq := false, is_aqlm := false, gptq_bits := 0 } } }

/-- A catalog entry of an AWQ-quantized family: the loader is bound with
`is_awq=True`. -/
def info_awq : ModelInfo :=
  { model_id_or_path := some "modelscope/llama2-7b-awq"
    requires := []
    torch_dtype := none
    ignore_file_pattern := none
    hf_model_id := none
    revision := "master"
    eos_token := none
    get_function :=
      { baseId := 0, fkwargs := { is_awq := true, is_aqlm := false, gptq_bits := 0 } } }

/-- A catalog entry with a fixed declared dtype (`torch_dtype` set in the
registration). -/
def info_fixed : ModelInfo :=
  { model_id_or_path := some "modelscope/fixed-dtype-model"
    requires := []
    torch_dtype := some .bfloat16
    ignore_file_pattern := none
    hf_model_id := none
    revision := "master"
    eos_token := some "<|endoftext|>"
    get_function :=
      { baseId := 1, fkwargs := { is_awq := false, is_aqlm := false, gptq_bits := 0 } } }

/-- A concrete `MODEL_MAPPING` holding the three fixture entries. -/
def mapping0 : ModelMapping := fun k =>
  if k = "llama2-7b-chat" then some info_llama
  else if k = "llama2-7b-awq" then some info_awq
  else if k = "fixed-dtype-model" then some info_fixed
  else none

/-- The patch state after one `fix_gradient_checkpointing_warning` on a
torch >= 2.1 process starting from `ps0`. -/
def ps1 : PatchState :=
  { torch_checkpoint := .wrapped .base false
    torch_has_old := true
    torch_old_checkpoint := some .base
    transformers_checkpoint := .wrapped .base false
    transformers_has_checkpoint := true }

/-- Trace of a tokenizer-only (`load_model := false`) resolution of
`"llama2-7b-chat"` under `env_ok`. -/
def tr_llama_tok : List Event :=
  [.downloadMS "modelscope/llama2-7b-chat" "master",
   .requireCheck "transformers>=4.34",
   .loadTokenizer "modelscope/llama2-7b-chat"]

/-- Result of that tokenizer-only resolution. -/
def res_llama_tok : GMTResult :=
  { model := none
    tokenizer :=
      { eos_token := some "</s>", pad_token := some "</s>",
        model_type := some "llama2-7b-chat", model_dir := some "modelscope/llama2-7b-chat" }
    resolved_dtype := some .float16
    model_dir := "modelscope/llama2-7b-chat"
    model_kwargs := { device_map := some "auto", quantization_config := none }
    patch_state := ps1
    ql_state := ql0 }

/-- Trace of a full (`load_model := true`) resolution of `"llama2-7b-chat"`
under `env_ok`. -/
def tr_llama_full : List Event :=
  [.downloadMS "modelscope/llama2-7b-chat" "master",
   .requireCheck "transformers>=4.34",
   .loadTokenizer "modelscope/llama2-7b-chat",
   .loadModel "modelscope/llama2-7b-chat"]

/-- The model produced by that full resolution. -/
def model_llama : Model :=
  { config := { torch_dtype := some .float16 }
    generation_config := some { temperature := temp06, do_sample := true }
    max_model_len := some 4096
    model_type := some "llama2-7b-chat"
    model_dir := some "modelscope/llama2-7b-chat"
    is_awq := false
    gptq_bits := 0 }

/-- The generation config of `model_llama` after the do-sample fixup. -/
def gc_llama : GenerationConfig := { temperature := temp06, do_sample := true }

/-- Result of the full resolution of `"llama2-7b-chat"` under `env_ok`. -/
def res_llama_full : GMTResult :=
  { model := some model_llama
    tokenizer :=
      { eos_token := some "</s>", pad_token := some "</s>",
        model_type := some "llama2-7b-chat", model_dir := some "modelscope/llama2-7b-chat" }
    resolved_dtype := some .float16
    model_dir := "modelscope/llama2-7b-chat"
    model_kwargs := { device_map := some "auto", quantization_config := none }
    patch_state := ps1
    ql_state := ql0 }

/-- Decidable equality of pipeline outcomes, for closed-instance checks. -/
instance : DecidableEq (Except Err GMTResult) := fun a b =>
  match a, b with
  | .ok x, .ok y => if h : x = y then .isTrue (by rw [h]) else .isFalse (by simp [h])
  | .error x, .error y => if h : x = y then .isTrue (by rw [h]) else .isFalse (by simp [h])
  | .ok _, .error _ => .isFalse (by simp)
  | .error _, .ok _ => .isFalse (by simp)

/-! ## Theorems -/

/-! ### Helper lemmas -/

/-- The `safe_snapshot_download` performs at most one external event, and it is a
download. -/
theorem snapshot_trace_shape (env : Env) (mapping : ModelMapping)
    (mt : String) (mip rev mdk : Option String) :
    (safe_snapshot_download env mapping mt mip rev mdk).1 = [] ∨
    (∃ i r, (safe_snapshot_download env mapping mt mip rev mdk).1 = [Event.downloadHF i r]) ∨
    (∃ i r, (safe_snapshot_download env mapping mt mip rev mdk).1 = [Event.downloadMS i r]) := by
  simp only [safe_snapshot_download]
  repeat' split
  all_goals
    first
      | (left; rfl)
      | (right; left; exact ⟨_, _, rfl⟩)
      | (right; right; exact ⟨_, _, rfl⟩)

/-- The requirement loop only performs requirement checks. -/
theorem check_requires_trace (env : Env) (rs : List String) :
    ∀ e ∈ (check_requires env rs).1, ∃ q, e = Event.requireCheck q := by
  induction rs with
  | nil => intro e he; simp [check_requires] at he
  | cons q rest ih =>
    intro e he
    simp only [check_requires] at he
    split at he
    · rcases hcr : check_requires env rest with ⟨es, rr⟩
      rw [hcr] at he ih
      simp only [List.mem_cons] at he
      rcases he with rfl | he
      · exact ⟨q, rfl⟩
      · exact ih e he
    · simp only [List.mem_singleton] at he
      exact ⟨q, he⟩

/-- Outcome of the requirement loop: success exactly when every constraint
is met, and otherwise an `unsatisfiedRequirement` naming an unmet one. -/
theorem check_requires_spec (env : Env) (rs : List String) :
    ((∀ r ∈ rs, env.requirement_met r = true) ∧ (check_requires env rs).2 = .ok ()) ∨
    (∃ r, r ∈ rs ∧ env.requirement_met r = false ∧
      (check_requires env rs).2 = .error (.unsatisfiedRequirement r)) := by
  induction rs with
  | nil => left; exact ⟨by simp, rfl⟩
  | cons q rest ih =>
    by_cases hq : env.requirement_met q
    · rcases hcr : check_requires env rest with ⟨es, rr⟩
      rw [hcr] at ih
      rcases ih with ⟨hall, hok⟩ | ⟨r, hmem, hunmet, herr⟩
      · left
        refine ⟨?_, ?_⟩
        · intro r hr
          rcases List.mem_cons.mp hr with rfl | hr
          · exact hq
          · exact hall r hr
        · simp only [check_requires, if_pos hq, hcr]
          exact hok
      · right
        refine ⟨r, List.mem_cons_of_mem q hmem, hunmet, ?_⟩
        simp only [check_requires, if_pos hq, hcr]
        exact herr
    · right
      refine ⟨q, List.mem_cons_self q rest, by simpa using hq, ?_⟩
      simp [check_requires, hq]

/-- When the loader receives a catalog eos override, the tokenizer it
returns carries exactly that eos token (model.py:789-791). -/
theorem from_repo_ok_eos (env : Env) (ql : QLState) (dir : String)
    (td : Option Dtype) (mk : ModelKwargs) (lm : Bool) (fk : FunctionKwargs)
    (e : String) (it : Bool) (mc : Option ModelConfig)
    (tok : Option Tokenizer) (m : Option Model)
    (tk : Tokenizer) (mk2 : ModelKwargs) (ql2 : QLState)
    (h : (get_model_tokenizer_from_repo env ql dir td mk lm fk (some e) it mc tok).2 =
      .ok (m, tk, mk2, ql2)) :
    tk.eos_token = some e := by
  simp only [get_model_tokenizer_from_repo] at h
  repeat' split at h
  all_goals simp only [Except.ok.injEq, Prod.mk.injEq] at h
  all_goals first
    | (exact Except.noConfusion h)
    | (obtain ⟨-, htk, -, -⟩ := h
       rw [← htk])

/-- The `safe_snapshot_download` never loads a model or a tokenizer. -/
theorem no_load_in_snapshot_trace (env : Env) (mapping : ModelMapping)
    (mt : String) (mip rev mdk : Option String) (dd : String) :
    Event.loadModel dd ∉ (safe_snapshot_download env mapping mt mip rev mdk).1 ∧
    Event.loadTokenizer dd ∉ (safe_snapshot_download env mapping mt mip rev mdk).1 := by
  rcases snapshot_trace_shape env mapping mt mip rev mdk with h | ⟨i, r, h⟩ | ⟨i, r, h⟩ <;>
    rw [h] <;> simp

/-- The requirement loop never loads a model or a tokenizer. -/
theorem no_load_in_requires_trace (env : Env) (rs : List String) (dd : String) :
    Event.loadModel dd ∉ (check_requires env rs).1 ∧
    Event.loadTokenizer dd ∉ (check_requires env rs).1 := by
  constructor <;> intro hm <;> obtain ⟨q, hq⟩ := check_requires_trace env rs _ hm <;>
    simp at hq

/-- The output of `fix_do_sample` never carries the inconsistent
combination (temperature strictly inside (0, 1) with sampling disabled). -/
theorem fix_do_sample_consistent (gc : GenerationConfig) :
    ¬(0 < (fix_do_sample gc).temperature ∧ (fix_do_sample gc).temperature < 1 ∧
      (fix_do_sample gc).do_sample = false) := by
  unfold fix_do_sample
  split
  · simp
  · rename_i hcond
    simpa using hcond

/-- Fields of a successful `post_load_fixups` run: the resolved directory
and dtype are the ones passed in, the tokenizer eos is the loader
tokenizer's eos, and eos and pad are both populated. -/
theorem plf_ok_fields (env : Env) (ps : PatchState) (tv : TorchVer)
    (mt dir : String) (rdt : Option Dtype) (mk : ModelKwargs) (ql : QLState)
    (model : Option Model) (tok : Tokenizer) (res : GMTResult)
    (h : post_load_fixups env ps tv mt dir rdt mk ql model tok = .ok res) :
    res.model_dir = dir ∧ res.resolved_dtype = rdt ∧
    res.tokenizer.eos_token = tok.eos_token ∧
    res.tokenizer.eos_token.isSome ∧ res.tokenizer.pad_token.isSome := by
  simp only [post_load_fixups] at h
  split at h
  · exact Except.noConfusion h
  · rename_i hne
    simp only [Except.ok.injEq] at h
    rw [← h]
    have heos : tok.eos_token.isSome := by
      cases he : tok.eos_token with
      | none => exact absurd (by simpa using he) (by simpa using hne)
      | some e => rfl
    refine ⟨rfl, rfl, ?_, ?_, ?_⟩
    · split <;> rfl
    · split <;> simpa using heos
    · split
      · simpa using heos
      · rename_i hpad
        simpa using Option.ne_none_iff_isSome.mp (by simpa using hpad)

/-- On a successful `post_load_fixups` run, any generation config on the
returned model went through `fix_do_sample`. -/
theorem plf_ok_gc (env : Env) (ps : PatchState) (tv : TorchVer)
    (mt dir : String) (rdt : Option Dtype) (mk : ModelKwargs) (ql : QLState)
    (model : Option Model) (tok : Tokenizer) (res : GMTResult)
    (m : Model) (gc : GenerationConfig)
    (h : post_load_fixups env ps tv mt dir rdt mk ql model tok = .ok res)
    (hm : res.model = some m) (hgc : m.generation_config = some gc) :
    ∃ gc0, gc = fix_do_sample gc0 := by
  simp only [post_load_fixups] at h
  split at h
  · exact Except.noConfusion h
  · simp only [Except.ok.injEq] at h
    rw [← h] at hm
    cases model with
    | none => simp at hm
    | some m0 =>
      simp only [Option.map_some', Option.some.injEq] at hm
      rw [← hm] at hgc
      cases hg0 : m0.generation_config with
      | some gc0 =>
        simp only [hg0] at hgc
        exact ⟨gc0, by simpa using hgc.symm⟩
      | none =>
        simp only [hg0] at hgc
        cases hf : env.gen_config_file dir with
        | none => rw [hf] at hgc; simp at hgc
        | some gcf =>
          rw [hf] at hgc
          exact ⟨gcf, by simpa using hgc.symm⟩

/-- C5: when the loaded model declares its own maximum context length and the
caller supplies an override, `prepare_model_template` (infer.py:188-197)
raises `contextLengthExceeded` whenever the caller value exceeds the
model-side limit, and otherwise succeeds with the caller value as the
resolved maximum length. -/
theorem c5_max_len_override (model : Model) (mm am : Int)
    (h : model.max_model_len = some mm) :
    (mm < am →
      prepare_model_template_max_len model (some am) =
        .error (.contextLengthExceeded am mm)) ∧
    (am ≤ mm →
      prepare_model_template_max_len model (some am) =
        .ok { model with max_model_len := some am }) := by
  constructor
  · intro h2
    simp only [prepare_model_template_max_len, h]
    rw [if_neg (not_le.mpr h2)]
  · intro h2
    simp only [prepare_model_template_max_len, h]
    rw [if_pos h2]

/-- C5 witness: a model-side limit of 100 with caller values 101 and 80. -/
theorem c5_witness :
    prepare_model_template_max_len
        { model0 { torch_dtype := none } with max_model_len := some 100 } (some 101) =
      .error (.contextLengthExceeded 101 100) ∧
    prepare_model_template_max_len
        { model0 { torch_dtype := none } with max_model_len := some 100 } (some 80) =
      .ok { model0 { torch_dtype := none } with max_model_len := some 80 } :=
  ⟨(c5_max_len_override _ 100 101 rfl).1 (by decide),
   (c5_max_len_override _ 100 80 rfl).2 (by decide)⟩

/-- C10: when the loaded model declares no maximum context length of its own,
a caller-supplied override is accepted unconditionally and becomes the
resolved maximum length, and the `contextLengthExceeded` error path can only
fire when the model declares its own limit. -/
theorem c10_no_model_limit (model : Model) (am : Option Int) :
    (model.max_model_len = none →
      prepare_model_template_max_len model am = .ok { model with max_model_len := am }) ∧
    (∀ e, prepare_model_template_max_len model am = .error e →
      model.max_model_len.isSome) := by
  constructor
  · intro h
    unfold prepare_model_template_max_len
    rw [h]
  · intro e h
    unfold prepare_model_template_max_len at h
    cases hm : model.max_model_len with
    | none => rw [hm] at h; exact absurd h (by simp)
    | some mm => rfl

/-- C10 witness: a model with no declared limit accepts a caller value of
1000000 unconditionally. -/
theorem c10_witness :
    prepare_model_template_max_len (model0 { torch_dtype := none }) (some 1000000) =
      .ok { model0 { torch_dtype := none } with max_model_len := some 1000000 } :=
  (c10_no_model_limit (model0 { torch_dtype := none }) (some 1000000)).1 rfl

/-- C8: after any successful registration of a key, registering the same key
again with `exists_ok := false` fails with the duplicate-key `ValueError`,
while registering it with `exists_ok := true` succeeds, and a subsequent
lookup of the key returns the second registration's loader (partially
applied to the second registration's `function_kwargs`): last-write-wins. -/
theorem c8_register_override (mapping : ModelMapping) (k : String)
    (a1 : RegisterArgs) (ex1 : Bool) (m1 : ModelMapping)
    (h : register_model mapping k a1 ex1 = .ok m1) (a2 : RegisterArgs) :
    register_model m1 k a2 false = .error (.duplicateKey k) ∧
    ∃ m2, register_model m1 k a2 true = .ok m2 ∧
      ∃ info, m2 k = some info ∧
        info.get_function = { baseId := a2.get_function, fkwargs := a2.function_kwargs } := by
  unfold register_model at h
  split at h
  · exact absurd h (by simp)
  · simp only [Except.ok.injEq] at h
    have hm1 : (m1 k).isSome := by
      rw [← h]
      simp
    constructor
    · simp [register_model, hm1]
    · unfold register_model
      rw [if_neg (by simp)]
      refine ⟨_, rfl,
        { model_id_or_path := a2.model_id_or_path
          requires := a2.requires.getD []
          torch_dtype := a2.torch_dtype
          ignore_file_pattern := a2.ignore_file_pattern
          hf_model_id := a2.hf_model_id
          revision := a2.revision.getD "master"
          eos_token := a2.eos_token
          get_function := { baseId := a2.get_function, fkwargs := a2.function_kwargs } },
        by simp, rfl⟩

/-- C8 witness: registering `"m"` over an empty mapping, then again. -/
theorem c8_witness :
    register_model
        (fun k => if k = "m" then
          some { model_id_or_path := none, requires := [], torch_dtype := none
                 ignore_file_pattern := none, hf_model_id := none, revision := "master"
                 eos_token := none
                 get_function := { baseId := 7, fkwargs := { is_awq := false, is_aqlm := false, gptq_bits := 0 } } }
          else none)
        "m"
        { model_id_or_path := none, requires := none, torch_dtype := none
          hf_model_id := none, revision := none, ignore_file_pattern := none
          function_kwargs := { is_awq := false, is_aqlm := false, gptq_bits := 0 }
          eos_token := none, get_function := 9 }
        false = .error (.duplicateKey "m") := by
  refine (c8_register_override (fun _ => none) "m"
    { model_id_or_path := none, requires := none, torch_dtype := none
      hf_model_id := none, revision := none, ignore_file_pattern := none
      function_kwargs := { is_awq := false, is_aqlm := false, gptq_bits := 0 }
      eos_token := none, get_function := 7 } false _ rfl _).1

/-- C6 counterexample: applying `fix_gradient_checkpointing_warning` twice
from the pristine state is not a state no-op — the second call reassigns
`transformers.modeling_utils.checkpoint` (no guard covers lines 3798-3803)
to a wrapper around the already-patched `torch.utils.checkpoint.checkpoint`,
leaving that target structurally double-wrapped rather than singly-wrapped. -/
theorem c6_counterexample :
    fix_gradient_checkpointing_warning .ge21 (fix_gradient_checkpointing_warning .ge21 ps0) ≠
      fix_gradient_checkpointing_warning .ge21 ps0 ∧
    (fix_gradient_checkpointing_warning .ge21
        (fix_gradient_checkpointing_warning .ge21 ps0)).transformers_checkpoint =
      .wrapped (.wrapped .base false) false ∧
    (fix_gradient_checkpointing_warning .ge21 ps0).transformers_checkpoint =
      .wrapped .base false := by
  decide

/-- C6 (amended): the guarded patches are idempotent — a second
`fix_gradient_checkpointing_warning` leaves `torch.utils.checkpoint` exactly
as after the first, and a second `_check_gptq_model` (on a fresh
`model_kwargs`) leaves the `QuantLinear` state exactly as after the first —
and although the unguarded `transformers.modeling_utils.checkpoint`
assignment double-wraps structurally, calling it after two applications
produces the same observable behavior as after one. -/
theorem c6_patching_idempotent :
    (∀ (tv : TorchVer) (s : PatchState),
      (fix_gradient_checkpointing_warning tv (fix_gradient_checkpointing_warning tv s)).torch_checkpoint =
        (fix_gradient_checkpointing_warning tv s).torch_checkpoint ∧
      (fix_gradient_checkpointing_warning tv (fix_gradient_checkpointing_warning tv s)).torch_has_old =
        (fix_gradient_checkpointing_warning tv s).torch_has_old ∧
      (fix_gradient_checkpointing_warning tv (fix_gradient_checkpointing_warning tv s)).torch_old_checkpoint =
        (fix_gradient_checkpointing_warning tv s).torch_old_checkpoint ∧
      ∀ u, (fix_gradient_checkpointing_warning tv
              (fix_gradient_checkpointing_warning tv s)).transformers_checkpoint.run u =
            (fix_gradient_checkpointing_warning tv s).transformers_checkpoint.run u) ∧
    (∀ (env : Env) (bits : Nat) (mk : ModelKwargs) (ql : QLState)
        (mk1 : ModelKwargs) (ql1 : QLState),
      _check_gptq_model env bits mk ql = .ok (mk1, ql1) →
      ∀ mk2 : ModelKwargs, mk2.quantization_config = none →
        _check_gptq_model env bits mk2 ql1 =
          .ok ({ mk2 with quantization_config := some (.gptq bits) }, ql1)) := by
  constructor
  · intro tv s
    cases tv with
    | lt2 => exact ⟨rfl, rfl, rfl, fun u => rfl⟩
    | ge2lt21 =>
      by_cases hs : s.torch_has_old <;>
        by_cases ht : s.transformers_has_checkpoint <;>
          simp [fix_gradient_checkpointing_warning, hs, ht, CkptFun.run]
    | ge21 =>
      by_cases hs : s.torch_has_old <;>
        by_cases ht : s.transformers_has_checkpoint <;>
          simp [fix_gradient_checkpointing_warning, hs, ht, CkptFun.run]
  · intro env bits mk ql mk1 ql1 h mk2 h2
    unfold _check_gptq_model at h ⊢
    split at h
    · exact absurd h (by simp)
    · split at h
      · exact absurd h (by simp)
      · have hql1 : ql1.has_old = true := by
          split at h
          all_goals simp only [Except.ok.injEq, Prod.mk.injEq] at h
          all_goals rw [← h.2]
          all_goals simp_all
        rw [if_neg (by simp [h2])]
        rw [if_neg (by assumption)]
        simp [hql1]

/-- C6 witness: the gptq clause of `c6_patching_idempotent` applied at a
concrete state: re-running `_check_gptq_model` after a first successful run
leaves the patched `QuantLinear` state untouched. -/
theorem c6_witness :
    _check_gptq_model env_gptq 4
        { device_map := none, quantization_config := none }
        { forward := .patched .base, has_old := true, old_forward := some .base } =
      .ok ({ device_map := none, quantization_config := some (.gptq 4) },
           { forward := .patched .base, has_old := true, old_forward := some .base }) := by
  have := c6_patching_idempotent.2 env_gptq 4
    { device_map := none, quantization_config := none } ql0
    { device_map := none, quantization_config := some (.gptq 4) }
    { forward := .patched .base, has_old := true, old_forward := some .base }
    (by rfl)
    { device_map := none, quantization_config := none } rfl
  exact this

/-- C1 counterexample: resolving `"llama2-7b-chat"` in a world where its
dependency requirement is unmet does fail naming the unmet constraint, but
only after the checkpoint download has been performed — `get_model_tokenizer`
calls `safe_snapshot_download` (model.py:3887) before the requirement loop
(model.py:3891-3893), so the failure does not precede the download. -/
theorem c1_counterexample :
    (get_model_tokenizer env0 mapping0 ps0 ql0 .ge21 "llama2-7b-chat" none none true none none
        none none none none).2 = .error (.unsatisfiedRequirement "transformers>=4.34") ∧
    Event.downloadMS "modelscope/llama2-7b-chat" "master" ∈
      (get_model_tokenizer env0 mapping0 ps0 ql0 .ge21 "llama2-7b-chat" none none true none none
        none none none none).1 :=
  ⟨rfl, by decide⟩

/-- C1 (amended): the dependency-requirement constraints are verified after
checkpoint materialization but before the loader is invoked: whenever the
catalog entry has an unmet requirement (and materialization succeeds),
resolution fails naming an unmet constraint, and neither a model nor a
tokenizer has been loaded — though the download has already happened. -/
theorem c1_requirements_after_download (envx : Env) (mapping : ModelMapping)
    (ps : PatchState) (ql : QLState) (tv : TorchVer) (mt : String)
    (td : Option Dtype) (mkw : Option ModelKwargs) (lm : Bool)
    (mip rev mdk : Option String) (it : Option Bool) (mc : Option ModelConfig)
    (tok : Option Tokenizer) (e1 : List Event) (dir : String)
    (info : ModelInfo) (r : String)
    (h1 : safe_snapshot_download envx mapping mt mip rev mdk = (e1, .ok dir))
    (h2 : mapping mt = some info)
    (h3 : r ∈ info.requires) (h4 : envx.requirement_met r = false) :
    ∃ r0, r0 ∈ info.requires ∧ envx.requirement_met r0 = false ∧
      (get_model_tokenizer envx mapping ps ql tv mt td mkw lm mip rev mdk it mc tok).2 =
        .error (.unsatisfiedRequirement r0) ∧
      ∀ dd, Event.loadModel dd ∉
          (get_model_tokenizer envx mapping ps ql tv mt td mkw lm mip rev mdk it mc tok).1 ∧
        Event.loadTokenizer dd ∉
          (get_model_tokenizer envx mapping ps ql tv mt td mkw lm mip rev mdk it mc tok).1 := by
  rcases check_requires_spec envx info.requires with ⟨hall, -⟩ | ⟨r0, hr0, hun, herr⟩
  · exact absurd (hall r h3) (by simp [h4])
  · rcases hcr : check_requires envx info.requires with ⟨e2, rc⟩
    rw [hcr] at herr
    simp only at herr
    subst herr
    have hmain : get_model_tokenizer envx mapping ps ql tv mt td mkw lm mip rev mdk it mc tok =
        (e1 ++ e2, .error (.unsatisfiedRequirement r0)) := by
      simp [get_model_tokenizer, h1, h2, hcr]
    have he1 : (safe_snapshot_download envx mapping mt mip rev mdk).1 = e1 := by rw [h1]
    have he2 : (check_requires envx info.requires).1 = e2 := by rw [hcr]
    refine ⟨r0, hr0, hun, by rw [hmain], ?_⟩
    intro dd
    rw [hmain]
    have hs' := no_load_in_snapshot_trace envx mapping mt mip rev mdk dd
    have hq' := no_load_in_requires_trace envx info.requires dd
    rw [he1] at hs'
    rw [he2] at hq'
    refine ⟨?_, ?_⟩ <;> intro hmem <;> rcases List.mem_append.mp hmem with hmem | hmem
    exacts [hs'.1 hmem, hq'.1 hmem, hs'.2 hmem, hq'.2 hmem]

/-- C1 witness: the amended theorem at the concrete unmet-requirement world
of `c1_counterexample`. -/
theorem c1_witness :
    ∃ r0, r0 ∈ info_llama.requires ∧ env0.requirement_met r0 = false ∧
      (get_model_tokenizer env0 mapping0 ps0 ql0 .ge21 "llama2-7b-chat" none none true none none
        none none none none).2 = .error (.unsatisfiedRequirement r0) ∧
      ∀ dd, Event.loadModel dd ∉
          (get_model_tokenizer env0 mapping0 ps0 ql0 .ge21 "llama2-7b-chat" none none true none
            none none none none none).1 ∧
        Event.loadTokenizer dd ∉
          (get_model_tokenizer env0 mapping0 ps0 ql0 .ge21 "llama2-7b-chat" none none true none
            none none none none none).1 :=
  c1_requirements_after_download env0 mapping0 ps0 ql0 .ge21 "llama2-7b-chat" none none true
    none none none none none none [.downloadMS "modelscope/llama2-7b-chat" "master"]
    "modelscope/llama2-7b-chat" info_llama "transformers>=4.34" rfl rfl (by decide) rfl

/-- C2: with a fixed declared dtype in the catalog entry, a conflicting
caller dtype (a) never yields a successful resolution and never loads a
model, (b) fails precisely with the dtype-mismatch assertion once
materialization succeeded and requirements are met, and (c) a caller
supplying no dtype resolves to the declared one. -/
theorem c2_declared_dtype (envx : Env) (mapping : ModelMapping)
    (ps : PatchState) (ql : QLState) (tv : TorchVer) (mt : String)
    (mkw : Option ModelKwargs) (lm : Bool) (mip rev mdk : Option String)
    (it : Option Bool) (mc : Option ModelConfig) (tok : Option Tokenizer)
    (info : ModelInfo) (d : Dtype)
    (h2 : mapping mt = some info) (hd : info.torch_dtype = some d) :
    (∀ d', d' ≠ d →
      (∀ tr res, get_model_tokenizer envx mapping ps ql tv mt (some d') mkw lm mip rev mdk it mc tok ≠
        (tr, .ok res)) ∧
      (∀ dd, Event.loadModel dd ∉
        (get_model_tokenizer envx mapping ps ql tv mt (some d') mkw lm mip rev mdk it mc tok).1)) ∧
    (∀ d' e1 dir, d' ≠ d →
      safe_snapshot_download envx mapping mt mip rev mdk = (e1, .ok dir) →
      (∀ r ∈ info.requires, envx.requirement_met r = true) →
      (get_model_tokenizer envx mapping ps ql tv mt (some d') mkw lm mip rev mdk it mc tok).2 =
        .error (.dtypeMismatch d)) ∧
    (∀ tr res, get_model_tokenizer envx mapping ps ql tv mt none mkw lm mip rev mdk it mc tok =
        (tr, .ok res) →
      res.resolved_dtype = some d) := by
  refine ⟨?_, ?_, ?_⟩
  · intro d' hne
    have key : ∀ tr0 r0,
        get_model_tokenizer envx mapping ps ql tv mt (some d') mkw lm mip rev mdk it mc tok =
          (tr0, r0) →
        (∀ res, r0 ≠ .ok res) ∧ ∀ dd, Event.loadModel dd ∉ tr0 := by
      intro tr0 r0 hr
      simp only [get_model_tokenizer] at hr
      repeat' split at hr
      all_goals try (
        rename mapping mt = some _ => hmap
        rw [h2] at hmap
        injection hmap with hmap
        subst hmap
        simp_all
        done)
      all_goals simp only [Prod.mk.injEq] at hr
      all_goals obtain ⟨htr, hro⟩ := hr
      all_goals subst htr
      all_goals subst hro
      all_goals refine ⟨by simp, ?_⟩
      all_goals intro dd hdd
      all_goals first
        | exact (no_load_in_snapshot_trace _ _ _ _ _ _ dd).1 hdd
        | (rcases List.mem_append.mp hdd with hdd | hdd
           exacts [(no_load_in_snapshot_trace _ _ _ _ _ _ dd).1 hdd,
                   (no_load_in_requires_trace _ _ dd).1 hdd])
    constructor
    · intro tr res hcon
      exact ((key _ _ hcon).1 res) rfl
    · intro dd
      rcases hr : get_model_tokenizer envx mapping ps ql tv mt (some d') mkw lm mip rev mdk it mc tok
        with ⟨tr0, r0⟩
      have := (key _ _ hr).2 dd
      simpa [hr] using this
  · intro d' e1 dir hne h1 h3
    simp only [get_model_tokenizer, h1, h2]
    rcases hcr : check_requires envx info.requires with ⟨e2, rc⟩
    rcases check_requires_spec envx info.requires with ⟨-, hok⟩ | ⟨r0, hr0, hun, -⟩
    · rw [hcr] at hok
      simp only at hok
      subst hok
      simp only [hcr, hd]
      rw [if_neg hne]
    · exact absurd (h3 r0 hr0) (by simp [hun])
  · intro tr res h
    simp only [get_model_tokenizer] at h
    repeat' split at h
    all_goals simp only [Prod.mk.injEq] at h
    all_goals try exact Except.noConfusion h.2
    all_goals obtain ⟨-, hplf⟩ := h
    all_goals have hf := plf_ok_fields _ _ _ _ _ _ _ _ _ _ _ hplf
    all_goals rename mapping mt = some _ => hmap
    all_goals rw [h2] at hmap
    all_goals injection hmap with hmap
    all_goals subst hmap
    all_goals rw [hf.2.1]
    all_goals simp_all

/-- C2 witness: resolving `"fixed-dtype-model"` (declared bfloat16) with an
explicit float16 fails with the dtype-mismatch assertion. -/
theorem c2_witness :
    (get_model_tokenizer env_ok mapping0 ps0 ql0 .ge21 "fixed-dtype-model" (some .float16) none
        true none none none none none none).2 = .error (.dtypeMismatch .bfloat16) :=
  (c2_declared_dtype env_ok mapping0 ps0 ql0 .ge21 "fixed-dtype-model" none true none none none
      none none none info_fixed .bfloat16 rfl rfl).2.1 .float16
    [.downloadMS "modelscope/fixed-dtype-model" "master"] "modelscope/fixed-dtype-model"
    (by decide) rfl (by simp [info_fixed])

/-- C3: with no declared dtype in the catalog entry, a successful resolution
with no caller dtype resolves to the checkpoint's own declared dtype from
its config metadata, with 32-bit float silently downgraded to 16-bit float;
a caller-supplied dtype is used as given. -/
theorem c3_dtype_from_config (envx : Env) (mapping : ModelMapping)
    (ps : PatchState) (ql : QLState) (tv : TorchVer) (mt : String)
    (mkw : Option ModelKwargs) (lm : Bool) (mip rev mdk : Option String)
    (it : Option Bool) (mc : Option ModelConfig) (tok : Option Tokenizer)
    (info : ModelInfo)
    (h2 : mapping mt = some info) (hd : info.torch_dtype = none) :
    (∀ tr res, get_model_tokenizer envx mapping ps ql tv mt none mkw lm mip rev mdk it mc tok =
        (tr, .ok res) →
      res.resolved_dtype =
        (if envx.config_torch_dtype res.model_dir = some Dtype.float32 then some Dtype.float16
         else envx.config_torch_dtype res.model_dir)) ∧
    (∀ t tr res, get_model_tokenizer envx mapping ps ql tv mt (some t) mkw lm mip rev mdk it mc tok =
        (tr, .ok res) →
      res.resolved_dtype = some t) := by
  constructor
  · intro tr res h
    simp only [get_model_tokenizer] at h
    repeat' split at h
    all_goals simp only [Prod.mk.injEq] at h
    all_goals try exact Except.noConfusion h.2
    all_goals obtain ⟨-, hplf⟩ := h
    all_goals have hf := plf_ok_fields _ _ _ _ _ _ _ _ _ _ _ hplf
    all_goals rename mapping mt = some _ => hmap
    all_goals rw [h2] at hmap
    all_goals injection hmap with hmap
    all_goals subst hmap
    all_goals rw [hf.2.1, hf.1]
    all_goals simp_all [get_torch_dtype]
  · intro t tr res h
    simp only [get_model_tokenizer] at h
    repeat' split at h
    all_goals simp only [Prod.mk.injEq] at h
    all_goals try exact Except.noConfusion h.2
    all_goals obtain ⟨-, hplf⟩ := h
    all_goals have hf := plf_ok_fields _ _ _ _ _ _ _ _ _ _ _ hplf
    all_goals rename mapping mt = some _ => hmap
    all_goals rw [h2] at hmap
    all_goals injection hmap with hmap
    all_goals subst hmap
    all_goals rw [hf.2.1]
    all_goals simp_all

/-- C3 witness: the concrete `"llama2-7b-chat"` resolution on a checkpoint
declaring float32 resolves to float16 — the downgrade rule at a concrete
input. -/
theorem c3_witness :
    res_llama_tok.resolved_dtype =
      (if env_ok.config_torch_dtype res_llama_tok.model_dir = some Dtype.float32
       then some Dtype.float16
       else env_ok.config_torch_dtype res_llama_tok.model_dir) :=
  (c3_dtype_from_config env_ok mapping0 ps0 ql0 .ge21 "llama2-7b-chat" none false none none none
      none none none info_llama rfl rfl).1 tr_llama_tok res_llama_tok rfl

/-- C4: every successful resolution (tokenizer-only included) returns a
tokenizer with a non-null eos token and a non-null pad token, and a catalog
eos override, when present, is forced onto the tokenizer. -/
theorem c4_eos_pad_invariant (envx : Env) (mapping : ModelMapping)
    (ps : PatchState) (ql : QLState) (tv : TorchVer) (mt : String)
    (td : Option Dtype) (mkw : Option ModelKwargs) (lm : Bool)
    (mip rev mdk : Option String) (it : Option Bool) (mc : Option ModelConfig)
    (tok : Option Tokenizer) (info : ModelInfo) (tr : List Event) (res : GMTResult)
    (h2 : mapping mt = some info)
    (h : get_model_tokenizer envx mapping ps ql tv mt td mkw lm mip rev mdk it mc tok =
      (tr, .ok res)) :
    res.tokenizer.eos_token.isSome ∧ res.tokenizer.pad_token.isSome ∧
      ∀ e, info.eos_token = some e → res.tokenizer.eos_token = some e := by
  simp only [get_model_tokenizer] at h
  repeat' split at h
  all_goals simp only [Prod.mk.injEq] at h
  all_goals try exact Except.noConfusion h.2
  all_goals obtain ⟨-, hplf⟩ := h
  all_goals have hf := plf_ok_fields _ _ _ _ _ _ _ _ _ _ _ hplf
  all_goals refine ⟨hf.2.2.2.1, hf.2.2.2.2, ?_⟩
  all_goals intro e he
  all_goals rename mapping mt = some _ => hmap
  all_goals rw [h2] at hmap
  all_goals injection hmap with hmap
  all_goals subst hmap
  all_goals rename (get_model_tokenizer_from_repo _ _ _ _ _ _ _ _ _ _ _).2 = _ => hrepo
  all_goals rw [he] at hrepo
  all_goals rw [hf.2.2.1]
  all_goals exact from_repo_ok_eos _ _ _ _ _ _ _ _ _ _ _ _ _ _ _ hrepo

/-- C4 witness: the concrete tokenizer-only resolution of
`"llama2-7b-chat"`: eos and pad both populated. -/
theorem c4_witness :
    res_llama_tok.tokenizer.eos_token.isSome ∧ res_llama_tok.tokenizer.pad_token.isSome ∧
      ∀ e, info_llama.eos_token = some e → res_llama_tok.tokenizer.eos_token = some e :=
  c4_eos_pad_invariant env_ok mapping0 ps0 ql0 .ge21 "llama2-7b-chat" none none false none none
    none none none none info_llama tr_llama_tok res_llama_tok rfl rfl

/-- C7 counterexample: a resolution of the AWQ family with the AWQ runtime
extension unavailable succeeds — the extension check of model.py:770-771
runs only when `is_training` is true, and `get_model_tokenizer` defaults
`is_training` to `False` (model.py:3919-3920), so the claim's "for every
resolution" fails. -/
theorem c7_counterexample :
    env_ok.awq_ext_available = false ∧
    info_awq.get_function.fkwargs.is_awq = true ∧
    (get_model_tokenizer env_ok mapping0 ps0 ql0 .ge21 "llama2-7b-awq" none none true none none
        none none none none).2.toOption.isSome = true :=
  ⟨rfl, rfl, rfl⟩

/-- C7 (amended): only training-mode resolutions (`is_training = True`; the
pipeline defaults it to `False`) perform the quantization-extension checks;
in training mode, an AWQ-bound loader with the AWQ extension unavailable
fails fast with its missing-extension `ImportError` before any load event,
a GPTQ-bound loader (`gptq_bits > 0`) with `auto_gptq` unavailable likewise,
and the failure propagates out of a full resolution with no model load. -/
theorem c7_training_only_ext_checks :
    (∀ (envx : Env) (ql : QLState) (dir : String) (td : Option Dtype)
        (mk : ModelKwargs) (lm : Bool) (fk : FunctionKwargs) (eos : Option String)
        (mc : Option ModelConfig) (tok : Option Tokenizer),
      fk.is_awq = true → envx.awq_ext_available = false →
      get_model_tokenizer_from_repo envx ql dir td mk lm fk eos true mc tok =
        ([], .error .missingAwqExt)) ∧
    (∀ (envx : Env) (ql : QLState) (dir : String) (td : Option Dtype)
        (mk : ModelKwargs) (lm : Bool) (fk : FunctionKwargs) (eos : Option String)
        (mc : Option ModelConfig) (tok : Option Tokenizer),
      fk.is_awq = false → 0 < fk.gptq_bits → envx.auto_gptq_available = false →
      mk.quantization_config = none →
      get_model_tokenizer_from_repo envx ql dir td mk lm fk eos true mc tok =
        ([], .error .missingAutoGptq)) ∧
    (∀ (envx : Env) (mapping : ModelMapping) (ps : PatchState) (ql : QLState)
        (tv : TorchVer) (mt : String) (mkw : Option ModelKwargs) (lm : Bool)
        (mip rev mdk : Option String) (mc : Option ModelConfig)
        (tok : Option Tokenizer) (e1 : List Event) (dir : String) (info : ModelInfo),
      safe_snapshot_download envx mapping mt mip rev mdk = (e1, .ok dir) →
      mapping mt = some info →
      (∀ r ∈ info.requires, envx.requirement_met r = true) →
      info.get_function.fkwargs.is_awq = true → envx.awq_ext_available = false →
      (get_model_tokenizer envx mapping ps ql tv mt none mkw lm mip rev mdk (some true) mc tok).2 =
          .error .missingAwqExt ∧
        ∀ dd, Event.loadModel dd ∉
          (get_model_tokenizer envx mapping ps ql tv mt none mkw lm mip rev mdk (some true) mc tok).1) := by
  have hawq : ∀ (envx : Env) (ql : QLState) (dir : String) (td : Option Dtype)
      (mk : ModelKwargs) (lm : Bool) (fk : FunctionKwargs) (eos : Option String)
      (mc : Option ModelConfig) (tok : Option Tokenizer),
      fk.is_awq = true → envx.awq_ext_available = false →
      get_model_tokenizer_from_repo envx ql dir td mk lm fk eos true mc tok =
        ([], .error .missingAwqExt) := by
    intro envx ql dir td mk lm fk eos mc tok ha he
    simp [get_model_tokenizer_from_repo, ha, _check_awq_ext, he]
  refine ⟨hawq, ?_, ?_⟩
  · intro envx ql dir td mk lm fk eos mc tok ha hb hg hq
    simp [get_model_tokenizer_from_repo, ha, hb, _check_gptq_model, hq, hg]
  · intro envx mapping ps ql tv mt mkw lm mip rev mdk mc tok e1 dir info h1 h2 h3 hfk hext
    rcases check_requires_spec envx info.requires with ⟨-, hok⟩ | ⟨r0, hr0, hun, -⟩
    · rcases hcr : check_requires envx info.requires with ⟨e2, rc⟩
      rw [hcr] at hok
      simp only at hok
      subst hok
      have hmain : get_model_tokenizer envx mapping ps ql tv mt none mkw lm mip rev mdk
          (some true) mc tok = (e1 ++ e2, .error .missingAwqExt) := by
        simp only [get_model_tokenizer, h1, h2, hcr, Option.getD_some]
        cases hdt : info.torch_dtype with
        | some d =>
          simp only [hdt]
          rw [hawq _ _ _ _ _ _ _ _ _ _ hfk hext]
          simp
        | none =>
          simp only [hdt]
          rw [hawq _ _ _ _ _ _ _ _ _ _ hfk hext]
          simp
      have he1 : (safe_snapshot_download envx mapping mt mip rev mdk).1 = e1 := by rw [h1]
      have he2 : (check_requires envx info.requires).1 = e2 := by rw [hcr]
      refine ⟨by rw [hmain], ?_⟩
      intro dd
      rw [hmain]
      have hs' := (no_load_in_snapshot_trace envx mapping mt mip rev mdk dd).1
      have hq' := (no_load_in_requires_trace envx info.requires dd).1
      rw [he1] at hs'
      rw [he2] at hq'
      intro hmem
      rcases List.mem_append.mp hmem with hmem | hmem
      exacts [hs' hmem, hq' hmem]
    · exact absurd (h3 r0 hr0) (by simp [hun])

/-- C7 witness: the training-mode AWQ check at a concrete input: the loader
fails fast with the missing-extension error and an empty event trace. -/
theorem c7_witness :
    get_model_tokenizer_from_repo env0 ql0 "modelscope/llama2-7b-awq" none
        { device_map := none, quantization_config := none } true
        info_awq.get_function.fkwargs none true none none =
      ([], .error .missingAwqExt) :=
  c7_training_only_ext_checks.1 env0 ql0 "modelscope/llama2-7b-awq" none
    { device_map := none, quantization_config := none } true info_awq.get_function.fkwargs
    none none none rfl rfl

/-- C9: `fix_do_sample` enables sampling exactly when the generation config
has temperature strictly between 0 and 1 with sampling disabled and is the
identity otherwise, and a model returned by a successful resolution never
carries that inconsistent combination. -/
theorem c9_do_sample_fixup :
    (∀ gc : GenerationConfig,
      ((0 < gc.temperature ∧ gc.temperature < 1 ∧ gc.do_sample = false) →
        fix_do_sample gc = { gc with do_sample := true }) ∧
      (¬(0 < gc.temperature ∧ gc.temperature < 1 ∧ gc.do_sample = false) →
        fix_do_sample gc = gc)) ∧
    (∀ (envx : Env) (mapping : ModelMapping) (ps : PatchState) (ql : QLState)
        (tv : TorchVer) (mt : String) (td : Option Dtype) (mkw : Option ModelKwargs)
        (lm : Bool) (mip rev mdk : Option String) (it : Option Bool)
        (mc : Option ModelConfig) (tok : Option Tokenizer) (tr : List Event)
        (res : GMTResult) (m : Model) (gc : GenerationConfig),
      get_model_tokenizer envx mapping ps ql tv mt td mkw lm mip rev mdk it mc tok =
        (tr, .ok res) →
      res.model = some m → m.generation_config = some gc →
      ¬(0 < gc.temperature ∧ gc.temperature < 1 ∧ gc.do_sample = false)) := by
  constructor
  · intro gc
    constructor
    · intro hc
      unfold fix_do_sample
      rw [if_pos hc]
    · intro hc
      unfold fix_do_sample
      rw [if_neg hc]
  · intro envx mapping ps ql tv mt td mkw lm mip rev mdk it mc tok tr res m gc h hm hgc
    simp only [get_model_tokenizer] at h
    repeat' split at h
    all_goals simp only [Prod.mk.injEq] at h
    all_goals try exact Except.noConfusion h.2
    all_goals obtain ⟨-, hplf⟩ := h
    all_goals obtain ⟨gc0, rfl⟩ := plf_ok_gc _ _ _ _ _ _ _ _ _ _ _ _ _ hplf hm hgc
    all_goals exact fix_do_sample_consistent gc0

/-- C9 witness: the concrete full resolution of `"llama2-7b-chat"` (shipped
generation config: temperature 0.6 with sampling disabled) ends with a
consistent generation config. -/
theorem c9_witness :
    ¬(0 < gc_llama.temperature ∧ gc_llama.temperature < 1 ∧ gc_llama.do_sample = false) :=
  c9_do_sample_fixup.2 env_ok mapping0 ps0 ql0 .ge21 "llama2-7b-chat" none none true none none
    none none none none tr_llama_full res_llama_full model_llama gc_llama (by decide) rfl rfl

end Swift
